import Mathlib

/-!
Shallow embedding of the authentication core of the Klymate-AI backend
(src/backend/app/utils/jwt_handler.py, src/backend/utils/auth_integration.py,
src/backend/app/core/middleware.py, src/backend/app/api/v1/endpoints/auth.py).

Modelling conventions:
- Time is UTC unix time in whole seconds (JWT `iat` and `exp` claims are
  serialized by PyJWT as integer unix timestamps, so second granularity is
  exact at the wire level).  Each Python function that reads the clock takes
  the current time `now : Nat` as an explicit parameter.
- A compact signed token is modelled by the structure `Token`: the payload
  together with the signing secret and algorithm.  `jwt.encode` is
  deterministic, so equal payload/secret/algorithm yield byte-identical
  strings, and distinct payloads yield distinct strings; equality of `Token`
  values therefore models byte equality of the encoded token strings.
- Strings carried in Authorization headers that may or may not be well-formed
  tokens are related to `Token` values by an environment
  `strTokens : String → Option Token` (none = string that fails JWS parsing,
  raising DecodeError inside jwt.decode).
- Python exceptions become `Except` values; the error component is the
  exception message string raised by the code on that path.
-/

namespace Klymate

/-- Decidable equality for Except results, so that concrete runs of the
embedded operations can be checked by evaluation. -/
instance decEqExcept {ε α : Type} [DecidableEq ε] [DecidableEq α] :
    DecidableEq (Except ε α)
  | .error a, .error b => decidable_of_iff (a = b) (by simp)
  | .error _, .ok _ => isFalse (by simp)
  | .ok _, .error _ => isFalse (by simp)
  | .ok a, .ok b => decidable_of_iff (a = b) (by simp)

/-- Python str.startswith, modelled on the underlying character sequences. -/
def pyStartswith (s pre : String) : Bool :=
  pre.data.isPrefixOf s.data

/-- Python str.split with a single-character separator, on character lists:
splits at every occurrence of the separator, keeping empty fields. -/
def splitChar (c : Char) : List Char → List (List Char)
  | [] => [[]]
  | x :: xs =>
      let r := splitChar c xs
      if x = c then
        [] :: r
      else
        match r with
        | [] => [[x]]
        | h :: t => (x :: h) :: t

/-- Python s.split(" "): split the string at every space character. -/
def pySplitSpace (s : String) : List String :=
  (splitChar ' ' s.data).map String.mk

/-- Configuration relevant to JWT handling, from app/core/config.py. -/
structure Settings where
  JWT_SECRET_KEY : String
  JWT_ALGORITHM : String
  JWT_ACCESS_TOKEN_EXPIRE_MINUTES : Nat
  JWT_REFRESH_TOKEN_EXPIRE_DAYS : Nat
deriving Repr, DecidableEq

/-- The default configuration values from app/core/config.py lines 45-49. -/
def defaultSettings : Settings :=
  { JWT_SECRET_KEY := "test-secret-key-for-development-only"
    JWT_ALGORITHM := "HS256"
    JWT_ACCESS_TOKEN_EXPIRE_MINUTES := 30
    JWT_REFRESH_TOKEN_EXPIRE_DAYS := 7 }

/-- The user_data dict consumed by the token generators (and the user-info
dict produced by validate_request_token): keys user_id, firebase_uid, email.
`dict.get` on a missing key yields None, hence `Option`. -/
structure UserData where
  user_id : Option String
  firebase_uid : Option String
  email : Option String
deriving Repr, DecidableEq

/-- The JWT claims payload built by generate_access_token /
generate_refresh_token (jwt_handler.py lines 46-54 and 91-99). -/
structure Payload where
  user_id : Option String
  firebase_uid : Option String
  email : Option String
  token_type : String
  exp : Nat
  iat : Nat
  iss : String
deriving Repr, DecidableEq

/-- A compact signed token as produced by jwt.encode: payload plus the
signing secret and algorithm (which determine the signature).  Equality of
`Token` values models byte equality of encoded token strings. -/
structure Token where
  payload : Payload
  secret : String
  alg : String
deriving Repr, DecidableEq

/-- The PyJWT exceptions that jwt.decode can raise, at the granularity the
calling code distinguishes them: ExpiredSignatureError is caught separately;
InvalidSignatureError, InvalidAlgorithmError, InvalidIssuerError and
DecodeError are all subclasses of InvalidTokenError and are caught together. -/
inductive PyJWTError where
  | expiredSignature
  | invalidToken (msg : String)
deriving Repr, DecidableEq

/-- Model of jwt.decode(token, key, algorithms=[...], issuer=...) for a
structurally well-formed token.  PyJWT validation order: the algorithm check
and signature verification happen first (inside verify_signature), then the
registered claims are validated with exp checked before iss; exp is expired
iff exp is less than or equal to now (leeway 0). -/
def jwtDecode (token : Token) (key : String) (algorithms : List String)
    (issuer : String) (now : Nat) : Except PyJWTError Payload :=
  if token.alg ∉ algorithms then
    .error (.invalidToken "The specified alg value is not allowed")
  else if token.secret ≠ key then
    .error (.invalidToken "Signature verification failed")
  else if token.payload.exp ≤ now then
    .error .expiredSignature
  else if token.payload.iss ≠ issuer then
    .error (.invalidToken "Invalid issuer")
  else
    .ok token.payload

/-- jwt.decode applied to a raw string: a string that is not a well-formed
compact JWS raises DecodeError (an InvalidTokenError). -/
def jwtDecodeStr (strTokens : String → Option Token) (s : String) (key : String)
    (algorithms : List String) (issuer : String) (now : Nat) :
    Except PyJWTError Payload :=
  match strTokens s with
  | none => .error (.invalidToken "Not enough segments")
  | some token => jwtDecode token key algorithms issuer now

/-- JWTHandler.generate_access_token (jwt_handler.py lines 25-68): builds the
access payload with expires_at = now + JWT_ACCESS_TOKEN_EXPIRE_MINUTES minutes
and signs it with the configured secret and algorithm. -/
def JWTHandler.generate_access_token (settings : Settings) (now : Nat)
    (user_data : UserData) : Token :=
  let expires_at := now + settings.JWT_ACCESS_TOKEN_EXPIRE_MINUTES * 60
  { payload :=
      { user_id := user_data.user_id
        firebase_uid := user_data.firebase_uid
        email := user_data.email
        token_type := "access"
        exp := expires_at
        iat := now
        iss := "klymate-ai-backend" }
    secret := settings.JWT_SECRET_KEY
    alg := settings.JWT_ALGORITHM }

/-- JWTHandler.generate_refresh_token (jwt_handler.py lines 70-113): same as
the access generator but with token_type refresh and a TTL in days. -/
def JWTHandler.generate_refresh_token (settings : Settings) (now : Nat)
    (user_data : UserData) : Token :=
  let expires_at := now + settings.JWT_REFRESH_TOKEN_EXPIRE_DAYS * 86400
  { payload :=
      { user_id := user_data.user_id
        firebase_uid := user_data.firebase_uid
        email := user_data.email
        token_type := "refresh"
        exp := expires_at
        iat := now
        iss := "klymate-ai-backend" }
    secret := settings.JWT_SECRET_KEY
    alg := settings.JWT_ALGORITHM }

/-- The exception-handling wrapper of JWTHandler.verify_token (lines 130-160)
applied to the result of jwt.decode.  The JWTError raised by the wrapper at
the token-type check (line 141) and at the manual expiry check (line 145) is
itself intercepted by the final `except Exception` clause (line 158) and
re-raised with the "Token verification failed: " prefix.  The Python return
type is Optional, hence `Option Payload` in the success case. -/
def verifyFromDecode (decoded : Except PyJWTError Payload) (token_type : String)
    (now : Nat) : Except String (Option Payload) :=
  match decoded with
  | .error .expiredSignature => .error "Token has expired"
  | .error (.invalidToken _) => .error "Invalid token"
  | .ok payload =>
      if payload.token_type ≠ token_type then
        .error ("Token verification failed: Invalid token type. Expected: " ++ token_type)
      else if payload.exp < now then
        .error "Token verification failed: Token has expired"
      else
        .ok (some payload)

/-- The message of the JWTError that escapes verify_token when the decoded
token_type claim does not equal the expected token_type argument. -/
def wrongTypeMsg (token_type : String) : String :=
  "Token verification failed: Invalid token type. Expected: " ++ token_type

/-- JWTHandler.verify_token (jwt_handler.py lines 115-160) on a structurally
well-formed token. -/
def JWTHandler.verify_token (settings : Settings) (now : Nat) (token : Token)
    (token_type : String) : Except String (Option Payload) :=
  verifyFromDecode
    (jwtDecode token settings.JWT_SECRET_KEY [settings.JWT_ALGORITHM]
      "klymate-ai-backend" now)
    token_type now

/-- JWTHandler.verify_token on a raw token string (as called from
validate_request_token). -/
def JWTHandler.verify_token_str (strTokens : String → Option Token)
    (settings : Settings) (now : Nat) (s : String) (token_type : String) :
    Except String (Option Payload) :=
  verifyFromDecode
    (jwtDecodeStr strTokens s settings.JWT_SECRET_KEY [settings.JWT_ALGORITHM]
      "klymate-ai-backend" now)
    token_type now

/-- The token-pair dict returned by refresh_access_token. -/
structure TokenPair where
  access_token : Token
  refresh_token : Token
  token_type : String
deriving Repr, DecidableEq

/-- JWTHandler.refresh_access_token (jwt_handler.py lines 162-204): verify the
presented token as a refresh token, rebuild user_data from its claims, and
mint a fresh access/refresh pair.  Any exception, including the JWTError
propagating out of verify_token and the one raised by the falsy-payload guard,
is caught at line 202 and re-raised as
JWTError("Token refresh failed: " + message). -/
def JWTHandler.refresh_access_token (settings : Settings) (now : Nat)
    (refresh_token : Token) : Except String TokenPair :=
  match JWTHandler.verify_token settings now refresh_token "refresh" with
  | .error e => .error ("Token refresh failed: " ++ e)
  | .ok none => .error "Token refresh failed: Invalid refresh token"
  | .ok (some payload) =>
      let user_data : UserData :=
        { user_id := payload.user_id
          firebase_uid := payload.firebase_uid
          email := payload.email }
      let new_access_token := JWTHandler.generate_access_token settings now user_data
      let new_refresh_token := JWTHandler.generate_refresh_token settings now user_data
      .ok { access_token := new_access_token
            refresh_token := new_refresh_token
            token_type := "bearer" }

/-- AuthIntegration.validate_request_token (auth_integration.py lines 68-104):
reject headers that are empty or lack the "Bearer " prefix, split out the
token, verify it as an access token, and swallow every JWTError into None. -/
def AuthIntegration.validate_request_token (strTokens : String → Option Token)
    (settings : Settings) (now : Nat) (authorization_header : String) :
    Option UserData :=
  if pyStartswith authorization_header "Bearer " then
    let token := (pySplitSpace authorization_header).getD 1 ""
    match JWTHandler.verify_token_str strTokens settings now token "access" with
    | .error _ => none
    | .ok none => none
    | .ok (some payload) =>
        some { user_id := payload.user_id
               firebase_uid := payload.firebase_uid
               email := payload.email }
  else
    none

/-- AuthIntegration.refresh_user_tokens (auth_integration.py lines 106-125):
delegate to JWTHandler.refresh_access_token and swallow every JWTError into
None. -/
def AuthIntegration.refresh_user_tokens (settings : Settings) (now : Nat)
    (refresh_token : Token) : Option TokenPair :=
  match JWTHandler.refresh_access_token settings now refresh_token with
  | .ok pair => some pair
  | .error _ => none

/-- An inbound HTTP request as seen by the authentication middleware: its path
and the value of the Authorization header, if present. -/
structure Request where
  path : String
  authorization : Option String
deriving Repr, DecidableEq

/-- Observable outcome of AuthenticationMiddleware.dispatch: a JSON error
response with a status code and error message, passing the request through
with a user attached to request.state, or skipping authentication entirely
for an excluded path. -/
inductive MWOutcome where
  | response (statusCode : Nat) (errMsg : String)
  | passThrough (user : UserData)
  | skipped
deriving Repr, DecidableEq

/-- The default exclude_paths list of AuthenticationMiddleware (middleware.py
lines 57-60). -/
def defaultExcludePaths : List String :=
  ["/", "/health", "/docs", "/redoc", "/openapi.json",
   "/api/v1/auth/register", "/api/v1/auth/login"]

/-- AuthenticationMiddleware.dispatch (middleware.py lines 62-104).  The
Python guard `if not authorization` treats both a missing header and an empty
header string as absent.  validate_request_token never raises, so the two
except clauses of dispatch are unreachable. -/
def AuthenticationMiddleware.dispatch (strTokens : String → Option Token)
    (settings : Settings) (now : Nat) (exclude_paths : List String)
    (request : Request) : MWOutcome :=
  if request.path ∈ exclude_paths then
    .skipped
  else
    let authorization := request.authorization.getD ""
    if authorization = "" then
      .response 401 "Authorization header required"
    else
      match AuthIntegration.validate_request_token strTokens settings now authorization with
      | none => .response 401 "Invalid or expired token"
      | some user_info => .passThrough user_info

/-- Observable outcome of the POST /refresh endpoint handler. -/
inductive RefreshResponse where
  | success (message : String) (tokens : TokenPair)
  | httpError (statusCode : Nat) (detail : String)
deriving Repr, DecidableEq

/-- refresh_tokens (endpoints/auth.py lines 132-163): delegates to
AuthIntegration.refresh_user_tokens.  On a None result the handler raises
HTTPException(401, "Invalid refresh token") at line 144, but that raise sits
inside the try block and HTTPException is not a JWTError, so the
`except Exception` clause at line 159 intercepts it and replaces it with
HTTPException(500, "Token refresh failed"); the externally observable failure
answer is therefore the 500 response.  refresh_user_tokens itself never
raises, so the JWTError clause at line 154 is unreachable and the generic
clause fires exactly on the handler's own 401 raise. -/
def refresh_tokens (settings : Settings) (now : Nat) (refresh_token : Token) :
    RefreshResponse :=
  match AuthIntegration.refresh_user_tokens settings now refresh_token with
  | none => .httpError 500 "Token refresh failed"
  | some new_tokens => .success "Tokens refreshed successfully" new_tokens

/-! ### Helper lemmas about the verification wrapper -/

/-- The wrapper around jwt.decode never returns a successful None: every path
either raises (an error value) or returns the decoded payload. -/
theorem verifyFromDecode_ne_ok_none (d : Except PyJWTError Payload)
    (token_type : String) (now : Nat) :
    verifyFromDecode d token_type now ≠ .ok none := by
  unfold verifyFromDecode
  match d with
  | .error .expiredSignature => simp
  | .error (.invalidToken m) => simp
  | .ok payload =>
      by_cases h1 : payload.token_type ≠ token_type
      · simp [h1]
      · by_cases h2 : payload.exp < now
        · simp [h1, h2]
        · simp [h1, h2]

/-- A successful verification returns exactly the decoded payload, and that
payload's token_type claim equals the expected token_type argument. -/
theorem verifyFromDecode_ok_inv (d : Except PyJWTError Payload)
    (token_type : String) (now : Nat) (p : Payload)
    (h : verifyFromDecode d token_type now = .ok (some p)) :
    d = .ok p ∧ p.token_type = token_type ∧ ¬ p.exp < now := by
  unfold verifyFromDecode at h
  match d with
  | .error .expiredSignature => simp at h
  | .error (.invalidToken m) => simp at h
  | .ok payload =>
      by_cases h1 : payload.token_type ≠ token_type
      · simp [h1] at h
      · by_cases h2 : payload.exp < now
        · simp [h1, h2] at h
        · simp [h1, h2] at h
          subst h
          exact ⟨rfl, by simpa using h1, h2⟩

/-- The exception message escaping verify_token is one of exactly four
strings: the two library-level messages and the two wrapped wrapper-level
messages. -/
theorem verifyFromDecode_error_classify (d : Except PyJWTError Payload)
    (token_type : String) (now : Nat) (e : String)
    (h : verifyFromDecode d token_type now = .error e) :
    e = "Token has expired" ∨ e = "Invalid token" ∨ e = wrongTypeMsg token_type ∨
      e = "Token verification failed: Token has expired" := by
  unfold verifyFromDecode at h
  match d with
  | .error .expiredSignature =>
      simp at h
      exact Or.inl h.symm
  | .error (.invalidToken m) =>
      simp at h
      exact Or.inr (Or.inl h.symm)
  | .ok payload =>
      by_cases h1 : payload.token_type ≠ token_type
      · simp [h1] at h
        exact Or.inr (Or.inr (Or.inl (by rw [← h]; rfl)))
      · by_cases h2 : payload.exp < now
        · simp [h1, h2] at h
          exact Or.inr (Or.inr (Or.inr h.symm))
        · simp [h1, h2] at h

/-! ### Claims -/

/-- C1: for every valid principal (non-empty subject id and email), verifying
the access token issued for it, at issuance time, under the same settings
(same secret and issuer) with expected type access, succeeds and returns the
decoded claims, whose user_id equals the principal's. -/
theorem C1_issue_then_validate_roundtrip (settings : Settings) (now : Nat)
    (ud : UserData) (sid email : String)
    (hsid : ud.user_id = some sid) (hsidne : sid ≠ "")
    (hem : ud.email = some email) (hemne : email ≠ "")
    (httl : 0 < settings.JWT_ACCESS_TOKEN_EXPIRE_MINUTES) :
    JWTHandler.verify_token settings now
        (JWTHandler.generate_access_token settings now ud) "access"
      = .ok (some (JWTHandler.generate_access_token settings now ud).payload) ∧
    (JWTHandler.generate_access_token settings now ud).payload.user_id
      = ud.user_id := by
  have hexp : ¬ (now + settings.JWT_ACCESS_TOKEN_EXPIRE_MINUTES * 60 ≤ now) := by
    omega
  have hexp2 : ¬ (now + settings.JWT_ACCESS_TOKEN_EXPIRE_MINUTES * 60 < now) := by
    omega
  constructor
  · unfold JWTHandler.verify_token JWTHandler.generate_access_token jwtDecode
      verifyFromDecode
    simp [hexp, hexp2]
  · rfl

/-- Concrete principal used to instantiate C1. -/
def C1ud : UserData :=
  { user_id := some "u1", firebase_uid := some "f1", email := some "u1@example.com" }

/-- Witness for C1 at a concrete principal and time. -/
theorem C1_issue_then_validate_roundtrip_witness :
    C1ud.user_id = some "u1" ∧ C1ud.email = some "u1@example.com" ∧
    0 < defaultSettings.JWT_ACCESS_TOKEN_EXPIRE_MINUTES ∧
    (JWTHandler.verify_token defaultSettings 1000
        (JWTHandler.generate_access_token defaultSettings 1000 C1ud) "access"
      = .ok (some (JWTHandler.generate_access_token defaultSettings 1000 C1ud).payload) ∧
    (JWTHandler.generate_access_token defaultSettings 1000 C1ud).payload.user_id
      = C1ud.user_id) :=
  ⟨by decide, by decide, by decide,
    C1_issue_then_validate_roundtrip defaultSettings 1000 C1ud "u1" "u1@example.com"
      (by decide) (by decide) (by decide) (by decide) (by decide)⟩

/-- C2: a token minted by either issuer under secret S1 is rejected with
InvalidToken when verified under a different secret S2, at any verification
time (regardless of expiry) and for any expected token type (regardless of
role). -/
theorem C2_wrong_secret_rejected (settings : Settings) (s2 : String)
    (tIssue now : Nat) (ud : UserData) (token_type : String)
    (hne : settings.JWT_SECRET_KEY ≠ s2) :
    JWTHandler.verify_token { settings with JWT_SECRET_KEY := s2 } now
        (JWTHandler.generate_access_token settings tIssue ud) token_type
      = .error "Invalid token" ∧
    JWTHandler.verify_token { settings with JWT_SECRET_KEY := s2 } now
        (JWTHandler.generate_refresh_token settings tIssue ud) token_type
      = .error "Invalid token" := by
  constructor
  · unfold JWTHandler.verify_token JWTHandler.generate_access_token jwtDecode
      verifyFromDecode
    simp [hne]
  · unfold JWTHandler.verify_token JWTHandler.generate_refresh_token jwtDecode
      verifyFromDecode
    simp [hne]

/-- Witness for C2 at a concrete pair of distinct secrets. -/
theorem C2_wrong_secret_rejected_witness :
    defaultSettings.JWT_SECRET_KEY ≠ "other-secret" ∧
    (JWTHandler.verify_token { defaultSettings with JWT_SECRET_KEY := "other-secret" } 0
        (JWTHandler.generate_access_token defaultSettings 0 C1ud) "access"
      = .error "Invalid token" ∧
    JWTHandler.verify_token { defaultSettings with JWT_SECRET_KEY := "other-secret" } 0
        (JWTHandler.generate_refresh_token defaultSettings 0 C1ud) "access"
      = .error "Invalid token") :=
  ⟨by decide,
    C2_wrong_secret_rejected defaultSettings "other-secret" 0 0 C1ud "access"
      (by decide)⟩

/-- C3: verifying a freshly issued (not yet expired) access token with
expected type refresh fails with the wrong-token-type error; and in general a
token whose token_type claim differs from the expected type argument is never
accepted. -/
theorem C3_wrong_role_rejected (settings : Settings) (tIssue now : Nat)
    (ud : UserData)
    (hfresh : now < (JWTHandler.generate_access_token settings tIssue ud).payload.exp) :
    JWTHandler.verify_token settings now
        (JWTHandler.generate_access_token settings tIssue ud) "refresh"
      = .error (wrongTypeMsg "refresh") ∧
    ∀ (t : Token) (token_type : String) (p : Payload),
      JWTHandler.verify_token settings now t token_type = .ok (some p) →
        p.token_type = token_type := by
  constructor
  · have hfresh2 : now < tIssue + settings.JWT_ACCESS_TOKEN_EXPIRE_MINUTES * 60 := by
      simpa [JWTHandler.generate_access_token] using hfresh
    have hnle : ¬ (tIssue + settings.JWT_ACCESS_TOKEN_EXPIRE_MINUTES * 60 ≤ now) := by
      omega
    unfold JWTHandler.verify_token JWTHandler.generate_access_token jwtDecode
      verifyFromDecode
    simp [hnle, wrongTypeMsg]
  · intro t token_type p h
    exact (verifyFromDecode_ok_inv _ _ _ _ h).2.1

/-- Witness for C3 at a concrete fresh access token. -/
theorem C3_wrong_role_rejected_witness :
    (10 : Nat) < (JWTHandler.generate_access_token defaultSettings 0 C1ud).payload.exp ∧
    (JWTHandler.verify_token defaultSettings 10
        (JWTHandler.generate_access_token defaultSettings 0 C1ud) "refresh"
      = .error (wrongTypeMsg "refresh") ∧
    ∀ (t : Token) (token_type : String) (p : Payload),
      JWTHandler.verify_token defaultSettings 10 t token_type = .ok (some p) →
        p.token_type = token_type) :=
  ⟨by decide, C3_wrong_role_rejected defaultSettings 0 10 C1ud (by decide)⟩

/-- C4: for a token carrying the right signature, algorithm, issuer and role,
verification strictly before exp succeeds with the decoded claims, and
verification at or after exp fails with the expiry error; the boundary
now = exp falls on the expired side (PyJWT treats exp less than or equal to
now as expired). -/
theorem C4_expiry_semantics (settings : Settings) (now : Nat) (t : Token)
    (hsec : t.secret = settings.JWT_SECRET_KEY)
    (halg : t.alg = settings.JWT_ALGORITHM)
    (hiss : t.payload.iss = "klymate-ai-backend")
    (hrole : t.payload.token_type = "access") :
    (now < t.payload.exp →
       JWTHandler.verify_token settings now t "access" = .ok (some t.payload)) ∧
    (t.payload.exp ≤ now →
       JWTHandler.verify_token settings now t "access" = .error "Token has expired") := by
  constructor
  · intro hlt
    have h1 : ¬ (t.payload.exp ≤ now) := by omega
    have h2 : ¬ (t.payload.exp < now) := by omega
    unfold JWTHandler.verify_token jwtDecode verifyFromDecode
    simp [hsec, halg, hiss, hrole, h1, h2]
  · intro hle
    unfold JWTHandler.verify_token jwtDecode verifyFromDecode
    simp [hsec, halg, hiss, hrole, hle]

/-- Witness for C4: both branches exercised on concrete tokens and times. -/
theorem C4_expiry_semantics_witness :
    ((JWTHandler.generate_access_token defaultSettings 0 C1ud).secret
        = defaultSettings.JWT_SECRET_KEY ∧
      (JWTHandler.generate_access_token defaultSettings 0 C1ud).payload.token_type
        = "access") ∧
    ((100 : Nat) < (JWTHandler.generate_access_token defaultSettings 0 C1ud).payload.exp →
      JWTHandler.verify_token defaultSettings 100
          (JWTHandler.generate_access_token defaultSettings 0 C1ud) "access"
        = .ok (some (JWTHandler.generate_access_token defaultSettings 0 C1ud).payload)) ∧
    ((JWTHandler.generate_access_token defaultSettings 0 C1ud).payload.exp ≤ 100 →
      JWTHandler.verify_token defaultSettings 100
          (JWTHandler.generate_access_token defaultSettings 0 C1ud) "access"
        = .error "Token has expired") :=
  ⟨⟨by decide, by decide⟩,
    C4_expiry_semantics defaultSettings 100
      (JWTHandler.generate_access_token defaultSettings 0 C1ud)
      (by decide) (by decide) (by decide) (by decide)⟩

/-- Concrete principal and token used to refute C5. -/
def C5ud : UserData :=
  { user_id := some "u5", firebase_uid := some "f5", email := some "u5@example.com" }

/-- An access token issued at time 0 under the default settings; its exp claim
is 1800. -/
def C5token : Token := JWTHandler.generate_access_token defaultSettings 0 C5ud

/-- C5 counterexample: an expired, correctly signed access token presented
with expected type refresh (wrong role AND expired) is rejected with the
expiry error, not the wrong-token-type error, refuting the claimed
role-before-expiry check order. -/
theorem C5_counterexample :
    JWTHandler.verify_token defaultSettings 999999 C5token "refresh"
        = .error "Token has expired" ∧
    JWTHandler.verify_token defaultSettings 999999 C5token "refresh"
        ≠ .error (wrongTypeMsg "refresh") := by
  constructor
  · decide
  · decide

/-- C5 amended: jwt.decode enforces expiry inside the decode step, before the
wrapper ever sees the payload, so for any token whose exp claim is at or
before the validation time, verification fails with the expiry error
regardless of the token's role (and even regardless of its issuer claim,
since PyJWT validates exp before iss); the wrapper's role check therefore
runs only on unexpired tokens. -/
theorem C5_amended_expiry_checked_before_role (settings : Settings) (now : Nat)
    (t : Token) (token_type : String)
    (hsec : t.secret = settings.JWT_SECRET_KEY)
    (halg : t.alg = settings.JWT_ALGORITHM)
    (hexp : t.payload.exp ≤ now) :
    JWTHandler.verify_token settings now t token_type
      = .error "Token has expired" := by
  unfold JWTHandler.verify_token jwtDecode verifyFromDecode
  simp [hsec, halg, hexp]

/-- Witness for the amended C5 at a concrete expired wrong-role token. -/
theorem C5_amended_expiry_checked_before_role_witness :
    C5token.secret = defaultSettings.JWT_SECRET_KEY ∧
    C5token.payload.exp ≤ 999999 ∧
    JWTHandler.verify_token defaultSettings 999999 C5token "refresh"
      = .error "Token has expired" :=
  ⟨by decide, by decide,
    C5_amended_expiry_checked_before_role defaultSettings 999999 C5token "refresh"
      (by decide) (by decide) (by decide)⟩

/-- Refreshing with a refresh token issued at t0, at any time strictly before
that token's exp claim, succeeds and mints a pair freshly generated at the
refresh time for the same user data. -/
theorem refresh_of_issued_fresh (settings : Settings) (t0 tnow : Nat)
    (ud : UserData)
    (h : tnow < t0 + settings.JWT_REFRESH_TOKEN_EXPIRE_DAYS * 86400) :
    JWTHandler.refresh_access_token settings tnow
        (JWTHandler.generate_refresh_token settings t0 ud)
      = .ok { access_token := JWTHandler.generate_access_token settings tnow ud
              refresh_token := JWTHandler.generate_refresh_token settings tnow ud
              token_type := "bearer" } := by
  have hnle : ¬ (t0 + settings.JWT_REFRESH_TOKEN_EXPIRE_DAYS * 86400 ≤ tnow) := by
    omega
  have hnlt : ¬ (t0 + settings.JWT_REFRESH_TOKEN_EXPIRE_DAYS * 86400 < tnow) := by
    omega
  unfold JWTHandler.refresh_access_token JWTHandler.verify_token
    JWTHandler.generate_refresh_token JWTHandler.generate_access_token jwtDecode
    verifyFromDecode
  simp [hnle, hnlt]

/-- Concrete principal used to refute C6. -/
def C6ud : UserData :=
  { user_id := some "u6", firebase_uid := some "f6", email := some "u6@example.com" }

/-- A refresh token issued at time 0 under the default settings. -/
def C6R1 : Token := JWTHandler.generate_refresh_token defaultSettings 0 C6ud

/-- C6 counterexample: a first refresh call made in the same second the
consumed refresh token was issued succeeds but returns a refresh token
byte-identical to the consumed one, refuting the claim that the first call
always returns a different refresh token. -/
theorem C6_counterexample :
    (JWTHandler.refresh_access_token defaultSettings 0 C6R1).map TokenPair.refresh_token
      = .ok C6R1 := by decide

/-- C6 amended: both refresh calls with the same unexpired refresh token
succeed (the consumed token is not revoked by use), and the first call
returns a different refresh token provided it happens at a different second
than the consumed token's issuance (iat has second granularity; a refresh in
the same second reproduces the identical token). -/
theorem C6_amended_refresh_twice_no_revocation (settings : Settings)
    (t0 t1 t2 : Nat) (ud : UserData)
    (h1 : t1 < t0 + settings.JWT_REFRESH_TOKEN_EXPIRE_DAYS * 86400)
    (h2 : t2 < t0 + settings.JWT_REFRESH_TOKEN_EXPIRE_DAYS * 86400)
    (hne : t1 ≠ t0) :
    JWTHandler.refresh_access_token settings t1
        (JWTHandler.generate_refresh_token settings t0 ud)
      = .ok { access_token := JWTHandler.generate_access_token settings t1 ud
              refresh_token := JWTHandler.generate_refresh_token settings t1 ud
              token_type := "bearer" } ∧
    JWTHandler.generate_refresh_token settings t1 ud
      ≠ JWTHandler.generate_refresh_token settings t0 ud ∧
    JWTHandler.refresh_access_token settings t2
        (JWTHandler.generate_refresh_token settings t0 ud)
      = .ok { access_token := JWTHandler.generate_access_token settings t2 ud
              refresh_token := JWTHandler.generate_refresh_token settings t2 ud
              token_type := "bearer" } := by
  refine ⟨refresh_of_issued_fresh settings t0 t1 ud h1, ?_,
    refresh_of_issued_fresh settings t0 t2 ud h2⟩
  intro h
  have hiat : t1 = t0 := by
    have hproj := congrArg (fun t => t.payload.iat) h
    simpa [JWTHandler.generate_refresh_token] using hproj
  exact hne hiat

/-- Witness for the amended C6 at concrete times 1 and 2 against a refresh
token issued at time 0. -/
theorem C6_amended_refresh_twice_no_revocation_witness :
    (1 : Nat) < 0 + defaultSettings.JWT_REFRESH_TOKEN_EXPIRE_DAYS * 86400 ∧
    (2 : Nat) < 0 + defaultSettings.JWT_REFRESH_TOKEN_EXPIRE_DAYS * 86400 ∧
    (JWTHandler.refresh_access_token defaultSettings 1
        (JWTHandler.generate_refresh_token defaultSettings 0 C6ud)
      = .ok { access_token := JWTHandler.generate_access_token defaultSettings 1 C6ud
              refresh_token := JWTHandler.generate_refresh_token defaultSettings 1 C6ud
              token_type := "bearer" } ∧
    JWTHandler.generate_refresh_token defaultSettings 1 C6ud
      ≠ JWTHandler.generate_refresh_token defaultSettings 0 C6ud ∧
    JWTHandler.refresh_access_token defaultSettings 2
        (JWTHandler.generate_refresh_token defaultSettings 0 C6ud)
      = .ok { access_token := JWTHandler.generate_access_token defaultSettings 2 C6ud
              refresh_token := JWTHandler.generate_refresh_token defaultSettings 2 C6ud
              token_type := "bearer" }) :=
  ⟨by decide, by decide,
    C6_amended_refresh_twice_no_revocation defaultSettings 0 1 2 C6ud
      (by decide) (by decide) (by decide)⟩

/-- Concrete principal used to refute C7. -/
def C7ud : UserData :=
  { user_id := some "u7", firebase_uid := some "f7", email := some "u7@example.com" }

/-- A refresh token issued at time 5 under the default settings. -/
def C7R1 : Token := JWTHandler.generate_refresh_token defaultSettings 5 C7ud

/-- C7 counterexample: a successful refresh performed in the same second the
consumed refresh token was issued returns a pair whose refresh token is
byte-identical to the consumed one: iat and exp have second granularity, so
within one second the signed payload, and hence the encoded token, coincide. -/
theorem C7_counterexample :
    JWTHandler.refresh_access_token defaultSettings 5 C7R1
      = .ok { access_token := JWTHandler.generate_access_token defaultSettings 5 C7ud
              refresh_token := C7R1
              token_type := "bearer" } := by decide

/-- C7 amended: for every successful refresh performed at a second different
from the consumed token's iat claim, the returned refresh token differs in
byte content from the consumed one. -/
theorem C7_amended_rotation_differs (settings : Settings) (now : Nat)
    (R1 : Token) (pair : TokenPair)
    (hok : JWTHandler.refresh_access_token settings now R1 = .ok pair)
    (hiat : now ≠ R1.payload.iat) :
    pair.refresh_token ≠ R1 := by
  unfold JWTHandler.refresh_access_token at hok
  cases hv : JWTHandler.verify_token settings now R1 "refresh" with
  | error e =>
      rw [hv] at hok
      simp at hok
  | ok op =>
      rw [hv] at hok
      cases op with
      | none => simp at hok
      | some payload =>
          simp at hok
          intro hEq
          have hnow : pair.refresh_token.payload.iat = now := by
            rw [← hok]
            simp [JWTHandler.generate_refresh_token]
          rw [hEq] at hnow
          exact hiat hnow.symm

/-- The concrete pair produced by refreshing C7R1 one second after issuance. -/
def C7pairW : TokenPair :=
  { access_token := JWTHandler.generate_access_token defaultSettings 6 C7ud
    refresh_token := JWTHandler.generate_refresh_token defaultSettings 6 C7ud
    token_type := "bearer" }

/-- Witness for the amended C7 at a concrete refresh one second after
issuance. -/
theorem C7_amended_rotation_differs_witness :
    JWTHandler.refresh_access_token defaultSettings 6 C7R1 = .ok C7pairW ∧
    (6 : Nat) ≠ C7R1.payload.iat ∧
    C7pairW.refresh_token ≠ C7R1 :=
  ⟨by decide, by decide,
    C7_amended_rotation_differs defaultSettings 6 C7R1 C7pairW
      (by decide) (by decide)⟩

/-- C8: whenever verification of the presented refresh token fails, for any
internal reason (bad signature, wrong issuer, wrong role, expired), the
refresh coordinator collapses the failure into one external error kind: the
integration layer returns the same None regardless of the reason — the code's
realization of the spec's single InvalidRefreshToken kind at the cited trust
boundary — and the refresh endpoint then answers with the one uniform
response 500 "Token refresh failed" (its intended 401 "Invalid refresh
token" raise is itself swallowed by the catch-all); in no case does the
internal failure reason reach the external caller. -/
theorem C8_refresh_collapses_to_single_error (settings : Settings) (now : Nat)
    (t : Token) (e : String)
    (hfail : JWTHandler.verify_token settings now t "refresh" = .error e) :
    AuthIntegration.refresh_user_tokens settings now t = none ∧
    refresh_tokens settings now t = .httpError 500 "Token refresh failed" := by
  have hra : JWTHandler.refresh_access_token settings now t
      = .error ("Token refresh failed: " ++ e) := by
    unfold JWTHandler.refresh_access_token
    rw [hfail]
  have hrut : AuthIntegration.refresh_user_tokens settings now t = none := by
    unfold AuthIntegration.refresh_user_tokens
    rw [hra]
  refine ⟨hrut, ?_⟩
  unfold refresh_tokens
  rw [hrut]

/-- Witness for C8: a fresh access token presented as a refresh token fails
verification with the wrong-type error, the integration layer yields None and
the endpoint answers 500 "Token refresh failed". -/
theorem C8_refresh_collapses_to_single_error_witness :
    JWTHandler.verify_token defaultSettings 10
        (JWTHandler.generate_access_token defaultSettings 0 C1ud) "refresh"
      = .error "Token verification failed: Invalid token type. Expected: refresh" ∧
    (AuthIntegration.refresh_user_tokens defaultSettings 10
        (JWTHandler.generate_access_token defaultSettings 0 C1ud) = none ∧
    refresh_tokens defaultSettings 10
        (JWTHandler.generate_access_token defaultSettings 0 C1ud)
      = .httpError 500 "Token refresh failed") :=
  ⟨by decide,
    C8_refresh_collapses_to_single_error defaultSettings 10
      (JWTHandler.generate_access_token defaultSettings 0 C1ud)
      "Token verification failed: Invalid token type. Expected: refresh"
      (by decide)⟩

/-- Concrete principal used to refute C9. -/
def C9ud : UserData :=
  { user_id := some "u9", firebase_uid := some "f9", email := some "u9@example.com" }

/-- An access token issued at time 0; expired long before time 999999. -/
def C9expiredTok : Token := JWTHandler.generate_access_token defaultSettings 0 C9ud

/-- A wire environment in which the string expired.tok is the encoding of
C9expiredTok and every other string fails JWS parsing. -/
def C9strTokens : String → Option Token := fun s =>
  if s = "expired.tok" then some C9expiredTok else none

/-- A request carrying a Basic credential instead of a Bearer one. -/
def C9reqBasic : Request :=
  { path := "/api/v1/users/me", authorization := some "Basic xxx" }

/-- A request carrying an expired bearer token. -/
def C9reqExpired : Request :=
  { path := "/api/v1/users/me", authorization := some "Bearer expired.tok" }

/-- C9 counterexample: the middleware maps a malformed Authorization header
(Basic scheme) and a failing bearer token (expired) to the very same
response, 401 with error "Invalid or expired token", so there is no distinct
MalformedCredential outcome and only two distinct error outcomes exist. -/
theorem C9_counterexample :
    AuthenticationMiddleware.dispatch C9strTokens defaultSettings 999999
        defaultExcludePaths C9reqBasic
      = .response 401 "Invalid or expired token" ∧
    AuthenticationMiddleware.dispatch C9strTokens defaultSettings 999999
        defaultExcludePaths C9reqExpired
      = .response 401 "Invalid or expired token" ∧
    AuthenticationMiddleware.dispatch C9strTokens defaultSettings 999999
        defaultExcludePaths C9reqBasic
      = AuthenticationMiddleware.dispatch C9strTokens defaultSettings 999999
          defaultExcludePaths C9reqExpired := by
  refine ⟨by decide, by decide, by decide⟩

/-- C9 amended: on a non-excluded path the middleware produces exactly two
distinct error outcomes: a missing (or empty) Authorization header yields 401
"Authorization header required", while a non-empty header without the
"Bearer " prefix and a bearer token failing validation for any reason both
yield the same 401 "Invalid or expired token" response. -/
theorem C9_amended_two_error_outcomes (strTokens : String → Option Token)
    (settings : Settings) (now : Nat) (req : Request) (a : String)
    (hpath : req.path ∉ defaultExcludePaths) :
    (req.authorization = none →
       AuthenticationMiddleware.dispatch strTokens settings now
           defaultExcludePaths req
         = .response 401 "Authorization header required") ∧
    (req.authorization = some a → a ≠ "" → pyStartswith a "Bearer " = false →
       AuthenticationMiddleware.dispatch strTokens settings now
           defaultExcludePaths req
         = .response 401 "Invalid or expired token") ∧
    (req.authorization = some a → a ≠ "" →
       AuthIntegration.validate_request_token strTokens settings now a = none →
       AuthenticationMiddleware.dispatch strTokens settings now
           defaultExcludePaths req
         = .response 401 "Invalid or expired token") := by
  refine ⟨?_, ?_, ?_⟩
  · intro hnone
    unfold AuthenticationMiddleware.dispatch
    simp [hpath, hnone]
  · intro hsome hne hmal
    have hval : AuthIntegration.validate_request_token strTokens settings now a
        = none := by
      unfold AuthIntegration.validate_request_token
      simp [hmal]
    unfold AuthenticationMiddleware.dispatch
    simp [hpath, hsome, hne, hval]
  · intro hsome hne hval
    unfold AuthenticationMiddleware.dispatch
    simp [hpath, hsome, hne, hval]

/-- Witness for the amended C9: all three branches exercised on concrete
requests. -/
theorem C9_amended_two_error_outcomes_witness :
    C9reqBasic.path ∉ defaultExcludePaths ∧
    ((C9reqBasic.authorization = none →
       AuthenticationMiddleware.dispatch C9strTokens defaultSettings 999999
           defaultExcludePaths C9reqBasic
         = .response 401 "Authorization header required") ∧
    (C9reqBasic.authorization = some "Basic xxx" → "Basic xxx" ≠ "" →
       pyStartswith "Basic xxx" "Bearer " = false →
       AuthenticationMiddleware.dispatch C9strTokens defaultSettings 999999
           defaultExcludePaths C9reqBasic
         = .response 401 "Invalid or expired token") ∧
    (C9reqBasic.authorization = some "Basic xxx" → "Basic xxx" ≠ "" →
       AuthIntegration.validate_request_token C9strTokens defaultSettings 999999
           "Basic xxx" = none →
       AuthenticationMiddleware.dispatch C9strTokens defaultSettings 999999
           defaultExcludePaths C9reqBasic
         = .response 401 "Invalid or expired token")) :=
  ⟨by decide,
    C9_amended_two_error_outcomes C9strTokens defaultSettings 999999 C9reqBasic
      "Basic xxx" (by decide)⟩

/-- C10: the token verification operation never returns a successful None, on
structurally well-formed tokens and on raw strings alike, so the falsy-payload
guards in its callers are unreachable; in particular the refresh coordinator
can never fail with its guard's message "Token refresh failed: Invalid refresh
token". -/
theorem C10_verify_never_returns_none (settings : Settings) (now : Nat)
    (t : Token) (token_type : String) (strTokens : String → Option Token)
    (s : String) :
    JWTHandler.verify_token settings now t token_type ≠ .ok none ∧
    JWTHandler.verify_token_str strTokens settings now s token_type ≠ .ok none ∧
    JWTHandler.refresh_access_token settings now t
      ≠ .error "Token refresh failed: Invalid refresh token" := by
  refine ⟨verifyFromDecode_ne_ok_none _ _ _, verifyFromDecode_ne_ok_none _ _ _, ?_⟩
  unfold JWTHandler.refresh_access_token
  cases hv : JWTHandler.verify_token settings now t "refresh" with
  | error e =>
      have hclass := verifyFromDecode_error_classify _ _ _ _ hv
      intro hcontra
      simp at hcontra
      rcases hclass with h | h | h | h <;> rw [h] at hcontra <;>
        exact absurd hcontra (by decide)
  | ok op =>
      cases op with
      | none => exact absurd hv (verifyFromDecode_ne_ok_none _ _ _)
      | some payload => simp

end Klymate
